import Mathlib

/-!
Shallow embedding of the OpenPAL3 SCE script virtual machine
(`src/opengb/src/directors/sce_vm.rs` together with the two command sources
`role_move_to.rs` and `role_move_back.rs`).

Conventions of the embedding:
* machine bytes are `Nat` values (< 256); instruction buffers are `List Nat`;
* `i16`/`i32` decode little-endian and interpret in two's complement as `Int`;
* `u32` decodes to `Nat`;
* `f32` arguments are carried as their raw 32-bit little-endian bit pattern
  (`Nat`), since the opcode-dispatch claims never interpret float values;
* GBK text decoding is abstracted: a decoded string is represented by its raw
  payload bytes (the trailing NUL stripped), exactly the slice the source
  hands to the GBK decoder;
* Rust panics / out-of-range slice accesses at decode time are represented by
  an explicit `truncated` outcome; the `panic!()` in the unknown-opcode branch
  is the `unknown` outcome, which carries the context at the panic point.
-/

namespace S2P

/-- Little-endian value of a byte list. -/
def leNat (bytes : List Nat) : Nat := bytes.foldr (fun b acc => b + 256 * acc) 0

/-- Two's-complement reinterpretation of a `w`-bit unsigned value. -/
def asSigned (w : Nat) (v : Nat) : Int :=
  if v < 2 ^ (w - 1) then (v : Int) else (v : Int) - 2 ^ w

/-- Header entry of `SceFile::proc_headers`: `{id, name, offset}`. -/
structure SceProcHeader where
  id : Nat
  name : String
  offset : Nat
deriving DecidableEq

/-- One procedure's instruction buffer (`SceProc::inst`). -/
structure SceProc where
  inst : List Nat
deriving DecidableEq

/-- The loaded script file: headers plus per-id instruction buffers.
The `procs` map is modelled as an association list keyed by procedure id. -/
structure SceFile where
  proc_headers : List SceProcHeader
  procs : List (Nat × SceProc)
deriving DecidableEq

/-- `SceProcContext`: one activation frame — shared script handle, the id of
the procedure being run, a program counter (byte offset), the frame-local
variable table (`HashMap<i16, i32>` modelled as an association list whose
most recent insertion shadows older ones) and the dialog-selection slot. -/
structure SceProcContext where
  sce : SceFile
  proc_id : Nat
  program_counter : Nat
  local_vars : List (Int × Int)
  dlgsel : Int
deriving DecidableEq

namespace SceProcContext

/-- The instruction buffer of the frame's procedure.  The source unwraps the
map lookup (panics when absent); all states considered here have the
procedure present, so a missing entry is modelled as the empty buffer. -/
def inst (ctx : SceProcContext) : List Nat :=
  (((ctx.sce.procs.lookup ctx.proc_id).map SceProc.inst).getD [])

/-- `set_local`: insert into the frame's local table. -/
def set_local (ctx : SceProcContext) (var value : Int) : SceProcContext :=
  { ctx with local_vars := (var, value) :: ctx.local_vars }

/-- `get_local`: frame-local lookup. -/
def get_local (ctx : SceProcContext) (var : Int) : Option Int :=
  ctx.local_vars.lookup var

/-- `set_dlgsel`. -/
def set_dlgsel (ctx : SceProcContext) (value : Int) : SceProcContext :=
  { ctx with dlgsel := value }

/-- `get_dlgsel`. -/
def get_dlgsel (ctx : SceProcContext) : Int := ctx.dlgsel

/-- `jump_to`: absolute jump within the procedure. -/
def jump_to (ctx : SceProcContext) (addr : Nat) : SceProcContext :=
  { ctx with program_counter := addr }

/-- `put`: rewind the program counter by `count` bytes. -/
def put (ctx : SceProcContext) (count : Nat) : SceProcContext :=
  { ctx with program_counter := ctx.program_counter - count }

/-- `proc_completed`: `pc >= inst.len()`. -/
def proc_completed (ctx : SceProcContext) : Bool :=
  ctx.inst.length ≤ ctx.program_counter

/-- `read(count)`: take `count` bytes at `pc`, advancing `pc`.  Reading past
the end of the buffer is the source's slice panic, modelled as `none`. -/
def read (count : Nat) (ctx : SceProcContext) :
    Option (List Nat × SceProcContext) :=
  if ctx.program_counter + count ≤ ctx.inst.length then
    some ((ctx.inst.drop ctx.program_counter).take count,
          { ctx with program_counter := ctx.program_counter + count })
  else none

/-- `read_string(len)`: the source slices `inst[pc .. pc+len-1]` (dropping the
trailing NUL byte), GBK-decodes it, and sets `pc := pc + len`.  The decoded
text is modelled as the raw payload byte list. -/
def read_string (len : Nat) (ctx : SceProcContext) :
    Option (List Nat × SceProcContext) :=
  if 1 ≤ len ∧ ctx.program_counter + len ≤ ctx.inst.length then
    some ((ctx.inst.drop ctx.program_counter).take (len - 1),
          { ctx with program_counter := ctx.program_counter + len })
  else none

end SceProcContext

/-- Parser shape of the `data_read` helpers: a state-threading partial read. -/
abbrev P (α : Type) := SceProcContext → Option (α × SceProcContext)

namespace data_read

/-- `data_read::i16`. -/
def i16 : P Int := fun ctx =>
  (SceProcContext.read 2 ctx).map (fun r => (asSigned 16 (leNat r.1), r.2))

/-- `data_read::i32`. -/
def i32 : P Int := fun ctx =>
  (SceProcContext.read 4 ctx).map (fun r => (asSigned 32 (leNat r.1), r.2))

/-- `data_read::u32`. -/
def u32 : P Nat := fun ctx =>
  (SceProcContext.read 4 ctx).map (fun r => (leNat r.1, r.2))

/-- `data_read::f32`, kept as the raw little-endian bit pattern. -/
def f32 : P Nat := u32

/-- `data_read::string`: u16 length prefix, then `read_string`. -/
def string : P (List Nat) := fun ctx =>
  match SceProcContext.read 2 ctx with
  | none => none
  | some (lenBytes, ctx1) => SceProcContext.read_string (leNat lenBytes) ctx1

/-- Items of `data_read::list`: each is a discarded one-byte tag followed by
a string. -/
def listItems : Nat → P (List (List Nat))
  | 0 => fun ctx => some ([], ctx)
  | n + 1 => fun ctx =>
    match SceProcContext.read 1 ctx with
    | none => none
    | some (_, ctx1) =>
      match string ctx1 with
      | none => none
      | some (s, ctx2) =>
        match listItems n ctx2 with
        | none => none
        | some (rest, ctx3) => some (s :: rest, ctx3)

/-- `data_read::list`: u16 count, then that many tagged strings. -/
def list : P (List (List Nat)) := fun ctx =>
  match SceProcContext.read 2 ctx with
  | none => none
  | some (lenBytes, ctx1) => listItems (leNat lenBytes) ctx1

end data_read

instance : Monad P where
  pure a := fun ctx => some (a, ctx)
  bind p f := fun ctx =>
    match p ctx with
    | none => none
    | some (a, ctx') => f a ctx'

/-- The dispatched command, one variant per `SceCommand*` constructor reached
from the opcode table, with the arguments the dispatcher binds.  `Nop` is
`SceCommandNop` produced by the `nop_command!` arms. -/
inductive SceCmd where
  | Idle (length : Nat)
  | ScriptRunMode (mode : Int)
  | Goto (offset : Nat)
  | Fop (op : Int)
  | Gt (var : Int) (value : Int)
  | Ls (var : Int) (value : Int)
  | Eq (var : Int) (value : Int)
  | Neq (var : Int) (value : Int)
  | Geq (var : Int) (value : Int)
  | Leq (var : Int) (value : Int)
  | TestGoto (offset : Nat)
  | Let (var : Int) (value : Int)
  | Call (proc_id : Nat)
  | Rnd (var : Int) (value : Int)
  | RolePathTo (role_id x y unknown : Int)
  | RoleSetPos (role_id x y : Int)
  | RoleShowAction (role_id : Int) (action_name : List Nat) (repeat_mode : Int)
  | RoleSetFace (role_id direction : Int)
  | RoleTurnFace (role_id : Int) (degree : Nat)
  | RoleInput (enable_input : Int)
  | RoleActive (role active : Int)
  | CameraMove (position_x position_y position_z unknown_1 unknown_2 : Nat)
  | CameraSet (y_rot x_rot unknown x y z : Nat)
  | CameraDefault (unknown : Int)
  | Dlg (text : List Nat)
  | LoadScene (name sub_name : List Nat)
  | DlgSel (options : List (List Nat))
  | GetDlgSel (var : Int)
  | GetAppr (var : Int)
  | HaveItem (item_id : Int)
  | PlaySound (name : List Nat) (repeat_flag : Int)
  | ObjectActive (object_id active : Int)
  | HyFly (position_x position_y position_z : Nat)
  | Music (name : List Nat) (unknown : Int)
  | StopMusic
  | RolePathOut (role_id x y unknown : Int)
  | RoleCtrl (role_id : Int)
  | RoleActAutoStand (role_id auto_play_idle : Int)
  | RoleMoveBack (role_id : Int) (speed : Nat)
  | RoleFaceRole (role_id role_id2 : Int)
  | RoleMoveTo (role_id x y unknown : Int)
  | Nop
deriving DecidableEq

/-- Outcome of dispatching one opcode:
* `parsed`: the match arm decoded its arguments and built the command;
* `unknown`: the default arm — `error!` log, `put(4)`, `panic!()`, with the
  context at the panic point;
* `truncated`: an argument read ran past the buffer (Rust slice panic). -/
inductive DispatchOut where
  | parsed (cmd : SceCmd) (ctx : SceProcContext)
  | unknown (code : Int) (ctx : SceProcContext)
  | truncated
deriving DecidableEq

/-- Run one match arm's argument parser. -/
def runP (p : P SceCmd) (ctx : SceProcContext) : DispatchOut :=
  match p ctx with
  | some (c, ctx') => .parsed c ctx'
  | none => .truncated

open SceCmd in
/-- The body of the big `match` in `SceProcContext::get_next_cmd`, keyed by
the already-read opcode.  Each `command!` arm reads its arguments via
`data_read`; the macro's `@reverse_arg` expansion emits the reads in
**reverse** declaration order (`let value = ...; let var = ...;`) and then
calls the constructor with the declared order, which is what the `do` blocks
below transcribe.  `nop_command!` arms likewise read (and discard) their
arguments in reverse declaration order. -/
def dispatch (code : Int) (ctx : SceProcContext) : DispatchOut :=
  match code with
  | 1 => runP (do let length ← data_read.f32; pure (Idle length)) ctx
  | 2 => runP (do let mode ← data_read.i32; pure (ScriptRunMode mode)) ctx
  | 3 => runP (do let offset ← data_read.u32; pure (Goto offset)) ctx
  | 5 => runP (do let op ← data_read.i32; pure (Fop op)) ctx
  | 6 | 65542 => runP (do
      let value ← data_read.i32; let var ← data_read.i16
      pure (Gt var value)) ctx
  | 7 | 65543 => runP (do
      let value ← data_read.i32; let var ← data_read.i16
      pure (Ls var value)) ctx
  | 8 | 65544 => runP (do
      let value ← data_read.i32; let var ← data_read.i16
      pure (Eq var value)) ctx
  | 9 | 65545 => runP (do
      let value ← data_read.i32; let var ← data_read.i16
      pure (Neq var value)) ctx
  | 10 | 65546 => runP (do
      let value ← data_read.i32; let var ← data_read.i16
      pure (Geq var value)) ctx
  | 11 | 65547 => runP (do
      let value ← data_read.i32; let var ← data_read.i16
      pure (Leq var value)) ctx
  | 12 => runP (do let offset ← data_read.u32; pure (TestGoto offset)) ctx
  | 13 | 65549 => runP (do
      let value ← data_read.i32; let var ← data_read.i16
      pure (Let var value)) ctx
  | 16 => runP (do let proc_id ← data_read.u32; pure (Call proc_id)) ctx
  | 17 | 65553 => runP (do
      let value ← data_read.i32; let var ← data_read.i16
      pure (Rnd var value)) ctx
  | 20 => runP (do
      let unknown ← data_read.i32; let y ← data_read.i32
      let x ← data_read.i32; let role_id ← data_read.i32
      pure (RolePathTo role_id x y unknown)) ctx
  | 21 => runP (do
      let y ← data_read.i32; let x ← data_read.i32
      let role_id ← data_read.i32
      pure (RoleSetPos role_id x y)) ctx
  | 22 => runP (do
      let repeat_mode ← data_read.i32; let action_name ← data_read.string
      let role_id ← data_read.i32
      pure (RoleShowAction role_id action_name repeat_mode)) ctx
  | 23 => runP (do
      let direction ← data_read.i32; let role_id ← data_read.i32
      pure (RoleSetFace role_id direction)) ctx
  | 24 => runP (do
      let degree ← data_read.f32; let role_id ← data_read.i32
      pure (RoleTurnFace role_id degree)) ctx
  | 27 => runP (do let enable_input ← data_read.i32; pure (RoleInput enable_input)) ctx
  | 28 => runP (do
      let active ← data_read.i32; let role ← data_read.i32
      pure (RoleActive role active)) ctx
  | 32 => runP (do
      let _ ← data_read.i32; let _ ← data_read.f32; let _ ← data_read.f32
      pure Nop) ctx
  | 33 => runP (do
      let _ ← data_read.i32; let _ ← data_read.f32; let _ ← data_read.f32
      let _ ← data_read.f32
      pure Nop) ctx
  | 34 => runP (do
      let unknown_2 ← data_read.f32; let unknown_1 ← data_read.f32
      let position_z ← data_read.f32; let position_y ← data_read.f32
      let position_x ← data_read.f32
      pure (CameraMove position_x position_y position_z unknown_1 unknown_2)) ctx
  | 35 => runP (do
      let _ ← data_read.i32; let _ ← data_read.f32; let _ ← data_read.f32
      let _ ← data_read.f32
      pure Nop) ctx
  | 36 => runP (do
      let z ← data_read.f32; let y ← data_read.f32; let x ← data_read.f32
      let unknown ← data_read.f32; let x_rot ← data_read.f32
      let y_rot ← data_read.f32
      pure (CameraSet y_rot x_rot unknown x y z)) ctx
  | 37 => runP (do let unknown ← data_read.i32; pure (CameraDefault unknown)) ctx
  | 46 => runP (do
      let _ ← data_read.i32; let _ ← data_read.i32
      pure Nop) ctx
  | 62 => runP (do let text ← data_read.string; pure (Dlg text)) ctx
  | 63 => runP (do
      let sub_name ← data_read.string; let name ← data_read.string
      pure (LoadScene name sub_name)) ctx
  | 65 => runP (do let l ← data_read.list; pure (DlgSel l)) ctx
  | 66 | 65602 => runP (do let var ← data_read.i16; pure (GetDlgSel var)) ctx
  | 67 => runP (do
      let _ ← data_read.i32; let _ ← data_read.string; let _ ← data_read.i32
      pure Nop) ctx
  | 68 => runP (do let _ ← data_read.string; pure Nop) ctx
  | 69 => runP (pure Nop) ctx
  | 70 => runP (pure Nop) ctx
  | 71 => runP (do let _ ← data_read.i32; pure Nop) ctx
  | 72 => runP (do
      let _ ← data_read.i32; let _ ← data_read.i32
      pure Nop) ctx
  | 78 => runP (do let item_id ← data_read.i32; pure (HaveItem item_id)) ctx
  | 79 => runP (do
      let repeat_flag ← data_read.i32; let name ← data_read.string
      pure (PlaySound name repeat_flag)) ctx
  | 85 => runP (do
      let active ← data_read.i32; let object_id ← data_read.i32
      pure (ObjectActive object_id active)) ctx
  | 86 => runP (do
      let _ ← data_read.i32; let _ ← data_read.string
      pure Nop) ctx
  | 87 => runP (do let _ ← data_read.i32; pure Nop) ctx
  | 88 => runP (do let _ ← data_read.i32; pure Nop) ctx
  | 89 => runP (do
      let position_z ← data_read.f32; let position_y ← data_read.f32
      let position_x ← data_read.f32
      pure (HyFly position_x position_y position_z)) ctx
  | 90 => runP (do
      let _ ← data_read.f32; let _ ← data_read.f32; let _ ← data_read.f32
      let _ ← data_read.f32; let _ ← data_read.i32
      pure Nop) ctx
  | 104 => runP (pure Nop) ctx
  | 108 | 65644 => runP (do let var ← data_read.i16; pure (GetAppr var)) ctx
  | 115 => runP (do let _ ← data_read.string; pure Nop) ctx
  | 116 => runP (do
      let _ ← data_read.string; let _ ← data_read.i32
      pure Nop) ctx
  | 118 => runP (do
      let _ ← data_read.f32; let _ ← data_read.f32
      pure Nop) ctx
  | 124 => runP (do let _ ← data_read.i32; pure Nop) ctx
  | 133 => runP (do
      let unknown ← data_read.i32; let name ← data_read.string
      pure (Music name unknown)) ctx
  | 134 => runP (pure StopMusic) ctx
  | 142 => runP (do
      let _ ← data_read.f32; let _ ← data_read.f32; let _ ← data_read.f32
      pure Nop) ctx
  | 143 => runP (do let _ ← data_read.i32; pure Nop) ctx
  | 148 => runP (do let _ ← data_read.i32; pure Nop) ctx
  | 150 => runP (do
      let _ ← data_read.string; let _ ← data_read.i32
      pure Nop) ctx
  | 201 => runP (do
      let unknown ← data_read.i32; let y ← data_read.i32
      let x ← data_read.i32; let role_id ← data_read.i32
      pure (RolePathOut role_id x y unknown)) ctx
  | 202 => runP (do
      let _ ← data_read.i32; let _ ← data_read.i32
      pure Nop) ctx
  | 204 => runP (do let role_id ← data_read.i32; pure (RoleCtrl role_id)) ctx
  | 207 => runP (do
      let auto_play_idle ← data_read.i32; let role_id ← data_read.i32
      pure (RoleActAutoStand role_id auto_play_idle)) ctx
  | 208 => runP (do
      let speed ← data_read.f32; let role_id ← data_read.i32
      pure (RoleMoveBack role_id speed)) ctx
  | 209 => runP (do
      let role_id2 ← data_read.i32; let role_id ← data_read.i32
      pure (RoleFaceRole role_id role_id2)) ctx
  | 210 => runP (do
      let direction ← data_read.i32; let role_id ← data_read.i32
      pure (RoleSetFace role_id direction)) ctx
  | 211 => runP (pure Nop) ctx
  | 212 => runP (pure Nop) ctx
  | 214 => runP (do
      let unknown ← data_read.i32; let y ← data_read.i32
      let x ← data_read.i32; let role_id ← data_read.i32
      pure (RoleMoveTo role_id x y unknown)) ctx
  | 221 => runP (do let _ ← data_read.i32; pure Nop) ctx
  | 250 => runP (do let _ ← data_read.i32; pure Nop) ctx
  | c => .unknown c (ctx.put 4)

/-- Outcome of `SceProcContext::get_next_cmd`. -/
inductive StepOut where
  | ok (cmd : Option SceCmd) (ctx : SceProcContext)
  | unknown (code : Int) (ctx : SceProcContext)
  | truncated
deriving DecidableEq

/-- `SceProcContext::get_next_cmd`: return `None` when the frame is
completed, otherwise read the `i32` opcode and dispatch on it. -/
def SceProcContext.get_next_cmd (ctx : SceProcContext) : StepOut :=
  if ctx.proc_completed then .ok none ctx
  else
    match data_read.i32 ctx with
    | none => .truncated
    | some (code, ctx1) =>
      match dispatch code ctx1 with
      | .parsed c ctx2 => .ok (some c) ctx2
      | .unknown c ctx2 => .unknown c ctx2
      | .truncated => .truncated

/-- `SceProcContext::new`: build the frame for the header at `index`.
Indexing out of range (a Rust panic; never reached through the public
constructors) is `none`. -/
def SceProcContext.new (sce : SceFile) (index : Nat) : Option SceProcContext :=
  match sce.proc_headers.get? index with
  | some h =>
    some { sce := sce, proc_id := h.id, program_counter := 0,
           local_vars := [], dlgsel := 0 }
  | none => none

/-- `SceProcContext::new_from_id`: position of the matching header, then
`new`.  The source unwraps the position (`ProcMissing` panic), modelled as
`none`. -/
def SceProcContext.new_from_id (sce : SceFile) (proc_id : Nat) :
    Option SceProcContext :=
  (sce.proc_headers.findIdx? (fun h => h.id = proc_id)).bind
    (fun index => SceProcContext.new sce index)

/-- `SceProcContext::new_from_name`. -/
def SceProcContext.new_from_name (sce : SceFile) (proc_name : String) :
    Option SceProcContext :=
  (sce.proc_headers.findIdx? (fun h => h.name = proc_name)).bind
    (fun index => SceProcContext.new sce index)

/-- `SceExecutionContext`: the shared script plus the stack of procedure
frames.  The Rust `Vec` has its top at the back; the model keeps the top
frame at the head of the list (push = cons, `last_mut` = head). -/
structure SceExecutionContext where
  sce : SceFile
  proc_stack : List SceProcContext
deriving DecidableEq

namespace SceExecutionContext

/-- `SceExecutionContext::new`. -/
def new (sce : SceFile) : SceExecutionContext :=
  { sce := sce, proc_stack := [] }

/-- `call_proc`: push a fresh frame for `proc_id` (`none` models the
`ProcMissing` panic for an unknown id). -/
def call_proc (e : SceExecutionContext) (proc_id : Nat) :
    Option SceExecutionContext :=
  (SceProcContext.new_from_id e.sce proc_id).map
    (fun f => { e with proc_stack := f :: e.proc_stack })

/-- `try_call_proc_by_name`: push if the name resolves, else no-op. -/
def try_call_proc_by_name (e : SceExecutionContext) (proc_name : String) :
    SceExecutionContext :=
  match SceProcContext.new_from_name e.sce proc_name with
  | some f => { e with proc_stack := f :: e.proc_stack }
  | none => e

/-- `jump_to`: apply to the top frame (`none` models the unwrap on an empty
stack). -/
def jump_to (e : SceExecutionContext) (addr : Nat) :
    Option SceExecutionContext :=
  match e.proc_stack with
  | [] => none
  | top :: rest => some { e with proc_stack := top.jump_to addr :: rest }

/-- `set_local` on the top frame (`none` models the unwrap on an empty
stack). -/
def set_local (e : SceExecutionContext) (var value : Int) :
    Option SceExecutionContext :=
  match e.proc_stack with
  | [] => none
  | top :: rest => some { e with proc_stack := top.set_local var value :: rest }

/-- `get_local` on the top frame. -/
def get_local (e : SceExecutionContext) (var : Int) : Option Int :=
  match e.proc_stack with
  | [] => none
  | top :: _ => top.get_local var

/-- The `while let` loop at the head of `SceExecutionContext::get_next_cmd`:
pop frames from the top while they are completed. -/
def drainStack : List SceProcContext → List SceProcContext
  | [] => []
  | p :: rest => if p.proc_completed then drainStack rest else p :: rest

end SceExecutionContext

/-- Outcome of `SceExecutionContext::get_next_cmd`. -/
inductive ExecOut where
  | ok (cmd : Option SceCmd) (e : SceExecutionContext)
  | unknown (code : Int) (e : SceExecutionContext)
  | truncated
deriving DecidableEq

/-- `SceExecutionContext::get_next_cmd`: drain completed frames, then ask the
remaining top frame (if any) for the next command. -/
def SceExecutionContext.get_next_cmd (e : SceExecutionContext) : ExecOut :=
  match SceExecutionContext.drainStack e.proc_stack with
  | [] => .ok none { e with proc_stack := [] }
  | top :: rest =>
    match top.get_next_cmd with
    | .ok c ctx' => .ok c { e with proc_stack := ctx' :: rest }
    | .unknown code ctx' => .unknown code { e with proc_stack := ctx' :: rest }
    | .truncated => .truncated

/-- `SceState`: the VM-wide state.  The engine handles (input, audio, asset
manager) and the opaque `GlobalState` are external collaborators and are not
part of the model; the fields the claims touch — the execution context, the
run mode and the `ext` scratchpad — are kept. -/
structure SceState where
  context : SceExecutionContext
  run_mode : Int
  ext : List (String × Unit)
deriving DecidableEq

/-- `SceState::new`: fresh context over `sce`, `run_mode = 1`, empty `ext`. -/
def SceState.new (sce : SceFile) : SceState :=
  { context := SceExecutionContext.new sce, run_mode := 1, ext := [] }

/-- `SceState::set_run_mode`. -/
def SceState.set_run_mode (s : SceState) (run_mode : Int) : SceState :=
  { s with run_mode := run_mode }

/-- `SceVm`: the state plus the active (unfinished, multi-frame) commands. -/
structure SceVm where
  state : SceState
  active_commands : List SceCmd
deriving DecidableEq

/-- `SceVm::new`: builds the fresh state and starts with no active
commands. -/
def SceVm.new (sce : SceFile) : SceVm :=
  { state := SceState.new sce, active_commands := [] }

/-!
### The per-frame scheduler (`SceVm::update`)

The scheduler manipulates `Box<dyn SceCommand>` values whose `initialize` /
`update` methods mutate the whole `SceState` (and the external scene) in
arbitrary ways; most concrete command implementations live outside the three
visible source files.  The scheduler is therefore embedded generically: a
`VmModel C S` packages, for one frame (one fixed `delta_sec`),
* `gsTick` — `global_state_mut().update(delta_sec)`;
* `getNext` — `state.context.get_next_cmd()` (decode panics are abstracted
  away: `getNext` is total);
* `initC` — `cmd.initialize(...)`;
* `tick` — `cmd.update(...)`, returning the mutated command, the mutated
  state and the `bool` completion flag;
* `runMode` — `state.run_mode()`.
`vmUpdate` below is the transcription of `SceVm::update` over such a model.
-/

/-- One-frame behaviour interface for commands and the state they mutate. -/
structure VmModel (C S : Type) where
  gsTick : S → S
  getNext : S → Option C × S
  initC : C → S → C × S
  tick : C → S → C × S × Bool
  runMode : S → Int

/-- The `else` branch of `SceVm::update`:
`active_commands.drain_filter(|cmd| cmd.update(...))` — tick each active
command once, front to back, dropping exactly those whose tick returns
`true`. -/
def tickAll {C S : Type} (tick : C → S → C × S × Bool) :
    List C → S → List C × S
  | [], s => ([], s)
  | c :: rest, s =>
    let r := tick c s
    let rr := tickAll tick rest r.2.1
    (if r.2.2 then rr.1 else r.1 :: rr.1, rr.2)

/-- Ghost-instrumented `tickAll`: additionally returns, in execution order,
one log entry `(input command, output command, finished)` per tick
performed. -/
def tickAllG {C S : Type} (tick : C → S → C × S × Bool) :
    List C → S → List C × S × List (C × C × Bool)
  | [], s => ([], s, [])
  | c :: rest, s =>
    let r := tick c s
    let rr := tickAllG tick rest r.2.1
    (if r.2.2 then rr.1 else r.1 :: rr.1, rr.2.1, (c, r.1, r.2.2) :: rr.2.2)

/-- The decode loop of `SceVm::update` (entered when the active set is
empty): pull the next command, initialize and tick it, keep it when
unfinished, and stop as soon as `run_mode == 1` and the active set is
non-empty; stop returning the current active set when the context has no
more commands.  `fuel` bounds the iteration count (the Rust `loop` can
spin forever); `none` means the fuel ran out. -/
def decodeLoop {C S : Type} (M : VmModel C S) :
    Nat → List C → S → Option (List C × S)
  | 0, _, _ => none
  | fuel + 1, active, s =>
    match M.getNext s with
    | (none, s1) => some (active, s1)
    | (some c, s1) =>
      let ci := M.initC c s1
      let ct := M.tick ci.1 ci.2
      let active1 := if ct.2.2 then active else active ++ [ct.1]
      if M.runMode ct.2.1 == 1 && !active1.isEmpty then some (active1, ct.2.1)
      else decodeLoop M fuel active1 ct.2.1

/-- Ghost-instrumented decode loop: also returns, in execution order, one
entry `(ticked command, finished)` per command decoded during the call. -/
def decodeLoopG {C S : Type} (M : VmModel C S) :
    Nat → List C → S → Option (List C × S × List (C × Bool))
  | 0, _, _ => none
  | fuel + 1, active, s =>
    match M.getNext s with
    | (none, s1) => some (active, s1, [])
    | (some c, s1) =>
      let ci := M.initC c s1
      let ct := M.tick ci.1 ci.2
      let active1 := if ct.2.2 then active else active ++ [ct.1]
      if M.runMode ct.2.1 == 1 && !active1.isEmpty then
        some (active1, ct.2.1, [(ct.1, ct.2.2)])
      else
        (decodeLoopG M fuel active1 ct.2.1).map
          (fun r => (r.1, r.2.1, (ct.1, ct.2.2) :: r.2.2))

/-- `SceVm::update`: tick the global state, then either run the decode loop
(empty active set) or tick-and-drain the active set.  The result is the new
active command list and state (`none` = decode-loop fuel ran out). -/
def vmUpdate {C S : Type} (M : VmModel C S) (fuel : Nat) (active : List C)
    (s : S) : Option (List C × S) :=
  let s0 := M.gsTick s
  if active.isEmpty then decodeLoop M fuel active s0
  else some (tickAll M.tick active s0)

/-!
### A concrete command instance for the scheduler

The commands below are *Modelled from the spec* (their Rust sources are not
among the visible files): opcode 2 `SetRunMode(mode)` stores `mode` into the
state's run mode and finishes instantly; opcode 1 `Idle(length)` accumulates
`delta_sec` until `length` is reached and finishes on that tick.  The frame
uses `delta_sec = 1`, so `Idle` is carried as its remaining whole-second
count.  The execution context is abstracted to the queue of commands it will
hand out. -/
inductive DemoCmd where
  | setRunMode (mode : Int)
  | idle (remain : Nat)
deriving DecidableEq

/-- State for the demo instance: pending commands plus the run mode. -/
structure DemoState where
  queue : List DemoCmd
  runMode : Int
deriving DecidableEq

/-- Demo `VmModel` over `DemoCmd` with `delta_sec = 1`. -/
def demoModel : VmModel DemoCmd DemoState where
  gsTick := id
  getNext := fun s =>
    match s.queue with
    | [] => (none, s)
    | c :: rest => (some c, { s with queue := rest })
  initC := fun c s => (c, s)
  tick := fun c s =>
    match c with
    | .setRunMode m => (c, { s with runMode := m }, true)
    | .idle n => (.idle (n - 1), s, n - 1 = 0)
  runMode := fun s => s.runMode

/-- A demo model whose run mode is pinned to 1 (no command changes it):
both commands finish instantly. -/
def demoSeqModel : VmModel Nat Nat where
  gsTick := id
  getNext := fun s => if s = 0 then (none, s) else (some s, s - 1)
  initC := fun c s => (c, s)
  tick := fun c s => (c, s, true)
  runMode := fun _ => 1

/-!
### Concrete buffers for evaluating the dispatcher
-/

/-- Two little-endian bytes of a 16-bit value. -/
def enc2 (v : Nat) : List Nat := [v % 256, v / 256 % 256]

/-- Four little-endian bytes of a 32-bit value. -/
def enc4 (v : Nat) : List Nat :=
  [v % 256, v / 256 % 256, v / 65536 % 256, v / 16777216 % 256]

/-- Encoding of a string argument: u16 length (payload plus NUL), the payload
bytes, the trailing NUL. -/
def encStr (payload : List Nat) : List Nat :=
  enc2 (payload.length + 1) ++ payload ++ [0]

/-- A single-procedure context positioned at the start of `bytes`. -/
def mkCtx (bytes : List Nat) : SceProcContext :=
  { sce := { proc_headers := [{ id := 0, name := "main", offset := 0 }],
             procs := [(0, { inst := bytes })] },
    proc_id := 0, program_counter := 0, local_vars := [], dlgsel := 0 }

/-- The command of a `StepOut`, when it decoded one. -/
def StepOut.cmdOf : StepOut → Option SceCmd
  | .ok c _ => c
  | _ => none

/-- The program counter after a `StepOut`, when a context survived. -/
def StepOut.pcOf : StepOut → Option Nat
  | .ok _ ctx => some ctx.program_counter
  | .unknown _ ctx => some ctx.program_counter
  | .truncated => none

/-!
### The two visible concrete commands, over exact reals

`role_move_to.rs` and `role_move_back.rs` compute with `f32` vectors through
the external `radiance` math/scene API; the embedding idealises `f32` as `ℝ`.
The pieces of `radiance` the two commands call are *Modelled from the spec*
(their sources are not among the visible files):
* `Vec3::norm` — Euclidean norm; `Vec3::normalized` — scaling by the inverse
  norm; `Vec3::add`/`Vec3::sub` — componentwise; `Vec3::dot(s, v)` — as used
  here, scalar multiplication;
* `nav_coord_to_scene_coord` — the host's nav-to-world translation, a
  parameter of the scene model;
* role entities — position plus animation, `run()`/`idle()` switching the
  animation, `look_at` recording the faced target, `translate_local`
  translating along the transform's local axes.
-/

/-- 3-component vector over exact reals. -/
structure Vec3 where
  x : ℝ
  y : ℝ
  z : ℝ

/-- Componentwise `Vec3::add`. -/
def Vec3.add (a b : Vec3) : Vec3 := ⟨a.x + b.x, a.y + b.y, a.z + b.z⟩

/-- Componentwise `Vec3::sub` (`to - position`). -/
def Vec3.sub (a b : Vec3) : Vec3 := ⟨a.x - b.x, a.y - b.y, a.z - b.z⟩

/-- `Vec3::norm`: Euclidean length. -/
noncomputable def Vec3.norm (v : Vec3) : ℝ :=
  Real.sqrt (v.x * v.x + v.y * v.y + v.z * v.z)

/-- `Vec3::normalized`: the unit vector (componentwise division by the
norm). -/
noncomputable def Vec3.normalized (v : Vec3) : Vec3 :=
  ⟨v.x / v.norm, v.y / v.norm, v.z / v.norm⟩

/-- `Vec3::dot(s, &v)` as used by `role_move_to.rs`: scalar multiplication. -/
def Vec3.dot (s : ℝ) (v : Vec3) : Vec3 := ⟨s * v.x, s * v.y, s * v.z⟩

/-- Role animation state, as far as the two commands drive it. -/
inductive RoleAnimation where
  | running
  | idle
  | other
deriving DecidableEq

/-- The addressed role entity: world position, the target last faced via
`look_at`, and the animation. -/
structure Role where
  position : Vec3
  faced_target : Option Vec3
  animation : RoleAnimation

/-- Scene-host model for `RoleMoveTo`: the nav-to-world translation and the
role the command addresses. -/
structure MoveToScene where
  nav_coord_to_scene_coord : ℝ → ℝ → Vec3
  role : Role

/-- `SceCommandRoleMoveTo`'s bound fields (`new` stringifies the role id and
casts the nav coordinates to `f32`; the id string is kept as the `Int`). -/
structure SceCommandRoleMoveTo where
  role_id : Int
  nav_x : ℝ
  nav_z : ℝ
  unknown : Int

/-- `SceCommandRoleMoveTo::new`. -/
def SceCommandRoleMoveTo.new (role_id nav_x nav_z unknown : Int) :
    SceCommandRoleMoveTo :=
  { role_id := role_id, nav_x := (nav_x : ℝ), nav_z := (nav_z : ℝ),
    unknown := unknown }

/-- `SceCommandRoleMoveTo::initialize`: start the `run` animation. -/
def SceCommandRoleMoveTo.initialize (_ : SceCommandRoleMoveTo)
    (scene : MoveToScene) : MoveToScene :=
  { scene with role := { scene.role with animation := .running } }

open Classical in
/-- `SceCommandRoleMoveTo::update` for one tick: translate the nav target,
step `SPEED * delta_sec` towards it, snap-and-idle when the remaining
distance is below the step, face the target, and report completion. -/
noncomputable def SceCommandRoleMoveTo.update (cmd : SceCommandRoleMoveTo)
    (scene : MoveToScene) (delta_sec : ℝ) : MoveToScene × Bool :=
  let SPEED : ℝ := 175
  let to_world := scene.nav_coord_to_scene_coord cmd.nav_x cmd.nav_z
  let position := scene.role.position
  let step := SPEED * delta_sec
  let remain := Vec3.sub to_world position
  let completed := remain.norm < step
  let new_position :=
    if completed then to_world
    else Vec3.add position (Vec3.dot step remain.normalized)
  let role1 : Role :=
    { position := new_position, faced_target := some to_world,
      animation := if completed then .idle else scene.role.animation }
  ({ scene with role := role1 }, decide completed)

/-- Transform model for `RoleMoveBack`: position plus the local axes frame
(only the local Z axis is exercised by the command). -/
structure Transform where
  position : Vec3
  local_x : Vec3
  local_y : Vec3
  local_z : Vec3

/-- `Transform::translate_local`: translate along the local axes. -/
def Transform.translate_local (t : Transform) (v : Vec3) : Transform :=
  let delta :=
    ((Vec3.dot v.x t.local_x).add (Vec3.dot v.y t.local_y)).add
      (Vec3.dot v.z t.local_z)
  { t with position := t.position.add delta }

/-- Scene-host model for `RoleMoveBack`: the transform of the role that
`get_resolved_role_entity_mut(state, role_id)` resolves to. -/
structure MoveBackScene where
  role_transform : Transform

/-- `SceCommandRoleMoveBack`'s bound fields. -/
structure SceCommandRoleMoveBack where
  role_id : Int
  speed : ℝ

/-- `SceCommandRoleMoveBack::new`. -/
def SceCommandRoleMoveBack.new (role_id : Int) (speed : ℝ) :
    SceCommandRoleMoveBack :=
  { role_id := role_id, speed := speed }

/-- `SceCommandRoleMoveBack::update`: translate the resolved role's transform
by `(0, 0, speed)` locally and finish immediately. -/
def SceCommandRoleMoveBack.update (cmd : SceCommandRoleMoveBack)
    (scene : MoveBackScene) (_delta_sec : ℝ) : MoveBackScene × Bool :=
  ({ scene with role_transform :=
      scene.role_transform.translate_local ⟨0, 0, cmd.speed⟩ }, true)

/-!
### The `RoleMoveTo` end-to-end scenario of the spec

`RoleMoveTo(role=1, nav=(0,350), _=0)`, identity nav-to-world translation
(`(x, z) ↦ (x, 0, z)`), role starting at the origin, `delta_sec = 1` per
tick. -/

/-- The dispatched command of the scenario. -/
noncomputable def moveToCmd : SceCommandRoleMoveTo :=
  SceCommandRoleMoveTo.new 1 0 350 0

/-- Identity nav-to-world translation. -/
def navIdentity : ℝ → ℝ → Vec3 := fun x z => ⟨x, 0, z⟩

/-- Scenario scene after `initialize` (role at the origin, running). -/
noncomputable def moveToScene0 : MoveToScene :=
  moveToCmd.initialize
    { nav_coord_to_scene_coord := navIdentity,
      role := { position := ⟨0, 0, 0⟩, faced_target := none,
                animation := .other } }

/-- First tick of the scenario. -/
noncomputable def moveToTick1 : MoveToScene × Bool :=
  moveToCmd.update moveToScene0 1

/-- Second tick of the scenario. -/
noncomputable def moveToTick2 : MoveToScene × Bool :=
  moveToCmd.update moveToTick1.1 1

/-- Third tick of the scenario. -/
noncomputable def moveToTick3 : MoveToScene × Bool :=
  moveToCmd.update moveToTick2.1 1

/-!
### Concrete fixtures used by witnesses and counterexamples
-/

/-- Two-procedure script: procedure 0 ("caller") holds a single `StopMusic`
opcode, procedure 1 ("callee") has an empty instruction buffer. -/
def sceC5 : SceFile :=
  { proc_headers := [{ id := 0, name := "caller", offset := 0 },
                     { id := 1, name := "callee", offset := 0 }],
    procs := [(0, { inst := enc4 134 }), (1, { inst := [] })] }

/-- Frame of the caller, positioned before its `StopMusic` opcode. -/
def callerFrame : SceProcContext :=
  { sce := sceC5, proc_id := 0, program_counter := 0, local_vars := [],
    dlgsel := 0 }

/-- Frame of the callee, which has run off its (empty) buffer. -/
def calleeFrame : SceProcContext :=
  { sce := sceC5, proc_id := 1, program_counter := 0, local_vars := [],
    dlgsel := 0 }

/-- Execution context after the callee completed: callee on top of caller. -/
def execC5 : SceExecutionContext :=
  { sce := sceC5, proc_stack := [calleeFrame, callerFrame] }

/-- A context whose buffer holds the unhandled opcode `0xDEADDEAD`. -/
def unknownCtx : SceProcContext := mkCtx (enc4 3735928559)

/-- The caller frame with local slot 5 set to 99. -/
def callerL : SceProcContext := callerFrame.set_local 5 99

/-- Demo scheduler state: `run_mode = 1` and a script that switches to
interleaved mode, starts two long idles, and switches back to strict
sequential. -/
def demoS0 : DemoState :=
  { queue := [DemoCmd.setRunMode 0, DemoCmd.idle 10, DemoCmd.idle 10,
              DemoCmd.setRunMode 1], runMode := 1 }

/-!
## Helper lemmas
-/

theorem runP_ne_unknown (p : P SceCmd) (ctx : SceProcContext) (c : Int)
    (ctx' : SceProcContext) : runP p ctx ≠ DispatchOut.unknown c ctx' := by
  unfold runP
  split <;> simp

set_option maxHeartbeats 3200000 in
theorem dispatch_unknown_eq {code : Int} {ctx : SceProcContext} {c : Int}
    {ctx' : SceProcContext} (h : dispatch code ctx = .unknown c ctx') :
    c = code ∧ ctx' = ctx.put 4 := by
  unfold dispatch at h
  split at h <;>
    first
      | exact absurd h (runP_ne_unknown _ _ _ _)
      | (injection h with h1 h2; exact ⟨h1.symm, h2.symm⟩)

theorem get_next_cmd_unknown {ctx : SceProcContext} {code : Int}
    {ctx' : SceProcContext}
    (h : ctx.get_next_cmd = .unknown code ctx') : ctx' = ctx := by
  unfold SceProcContext.get_next_cmd at h
  split at h
  · simp at h
  · split at h
    · simp at h
    · rename_i code0 ctx1 h32
      split at h
      · simp at h
      · rename_i c2 ctx2 hd
        injection h with h1 h2
        subst h1; subst h2
        obtain ⟨hc, hctx⟩ := dispatch_unknown_eq hd
        unfold data_read.i32 SceProcContext.read at h32
        split at h32
        · simp at h32
          obtain ⟨-, h32⟩ := h32
          subst hctx
          rw [← h32]
          unfold SceProcContext.put
          cases ctx
          simp
        · simp at h32
      · simp at h

theorem drainStack_eq_dropWhile (stack : List SceProcContext) :
    SceExecutionContext.drainStack stack =
      stack.dropWhile (fun p => p.proc_completed) := by
  induction stack with
  | nil => rfl
  | cons p rest ih =>
    unfold SceExecutionContext.drainStack
    rw [List.dropWhile_cons, ih]

theorem new_from_id_shape {sce : SceFile} {proc_id : Nat} {f : SceProcContext}
    (h : SceProcContext.new_from_id sce proc_id = some f) :
    f.local_vars = [] ∧ f.program_counter = 0 := by
  unfold SceProcContext.new_from_id at h
  rcases Option.bind_eq_some.mp h with ⟨i, _, hnew⟩
  unfold SceProcContext.new at hnew
  split at hnew
  · cases hnew; exact ⟨rfl, rfl⟩
  · simp at hnew

theorem tickAll_eq_G {C S : Type} (tick : C → S → C × S × Bool) :
    ∀ (cs : List C) (s : S),
      tickAll tick cs s = ((tickAllG tick cs s).1, (tickAllG tick cs s).2.1)
  | [], _s => rfl
  | c :: rest, s => by
    simp only [tickAll, tickAllG]
    rw [tickAll_eq_G tick rest]

theorem tickAllG_log_inputs {C S : Type} (tick : C → S → C × S × Bool) :
    ∀ (cs : List C) (s : S),
      ((tickAllG tick cs s).2.2).map (fun e => e.1) = cs
  | [], _s => rfl
  | c :: rest, s => by
    simp only [tickAllG, List.map_cons]
    rw [tickAllG_log_inputs tick rest]

theorem tickAllG_survivors {C S : Type} (tick : C → S → C × S × Bool) :
    ∀ (cs : List C) (s : S),
      (tickAllG tick cs s).1 =
        (((tickAllG tick cs s).2.2).filter (fun e => !e.2.2)).map
          (fun e => e.2.1)
  | [], _s => rfl
  | c :: rest, s => by
    simp only [tickAllG, List.filter_cons]
    rw [tickAllG_survivors tick rest]
    cases h : (tick c s).2.2 <;> simp

theorem vmUpdate_active_nonempty {C S : Type} (M : VmModel C S) (fuel : Nat)
    (active : List C) (s : S) (h : active ≠ []) :
    vmUpdate M fuel active s = some (tickAll M.tick active (M.gsTick s)) := by
  cases active with
  | nil => exact absurd rfl h
  | cons c rest => rfl

theorem vmUpdate_tick_only {C S : Type} (M M' : VmModel C S) (fuel : Nat)
    (active : List C) (s : S) (h : active ≠ [])
    (ht : M'.tick = M.tick) (hg : M'.gsTick = M.gsTick) :
    vmUpdate M' fuel active s = vmUpdate M fuel active s := by
  cases active with
  | nil => exact absurd rfl h
  | cons c rest =>
    show some _ = some _
    rw [ht, hg]

theorem decodeLoop_eq_G {C S : Type} (M : VmModel C S) :
    ∀ (fuel : Nat) (active : List C) (s : S),
      decodeLoop M fuel active s =
        (decodeLoopG M fuel active s).map (fun r => (r.1, r.2.1))
  | 0, _active, _s => rfl
  | fuel + 1, active, s => by
    unfold decodeLoop decodeLoopG
    rcases M.getNext s with ⟨copt, s1⟩
    cases copt with
    | none => simp
    | some c =>
      dsimp only
      generalize M.tick (M.initC c s1).1 (M.initC c s1).2 = ct
      generalize (if ct.2.2 then active else active ++ [ct.1]) = active1
      cases hcond : (M.runMode ct.2.1 == 1 && !active1.isEmpty) with
      | true => simp [hcond]
      | false =>
        simp only [hcond, if_false, Bool.false_eq_true]
        rw [decodeLoop_eq_G M fuel]
        cases decodeLoopG M fuel active1 ct.2.1 <;> simp

theorem decodeLoopG_mode1 {C S : Type} (M : VmModel C S)
    (hNext : ∀ s, M.runMode (M.getNext s).2 = M.runMode s)
    (hInit : ∀ c s, M.runMode (M.initC c s).2 = M.runMode s)
    (hTick : ∀ c s, M.runMode (M.tick c s).2.1 = M.runMode s) :
    ∀ (fuel : Nat) (s : S) (active' : List C) (s' : S)
      (log : List (C × Bool)),
      M.runMode s = 1 →
      decodeLoopG M fuel [] s = some (active', s', log) →
      active' = (log.filter (fun e => !e.2)).map Prod.fst ∧
      active'.length ≤ 1 ∧ (∀ e ∈ log.dropLast, e.2 = true)
  | 0, s, active', s', log => by intro _ h; simp [decodeLoopG] at h
  | fuel + 1, s, active', s', log => by
    intro hmode h
    unfold decodeLoopG at h
    rcases hg : M.getNext s with ⟨copt, s1⟩
    rw [hg] at h
    have hs1 : M.runMode s1 = 1 := by
      have := hNext s; rw [hg] at this; simpa [hmode] using this
    cases copt with
    | none =>
      simp only [Option.some.injEq, Prod.mk.injEq] at h
      obtain ⟨h1, h2, h3⟩ := h
      subst h1; subst h3
      simp
    | some c =>
      dsimp only at h
      have hs2 : M.runMode (M.tick (M.initC c s1).1 (M.initC c s1).2).2.1 = 1 := by
        rw [hTick, hInit, hs1]
      cases hfin : (M.tick (M.initC c s1).1 (M.initC c s1).2).2.2 with
      | true =>
        rw [hfin] at h
        simp only [if_true, List.nil_append, List.isEmpty_nil, Bool.not_true,
          Bool.and_false, Bool.false_eq_true, if_false] at h
        rcases hrec : decodeLoopG M fuel []
            (M.tick (M.initC c s1).1 (M.initC c s1).2).2.1
          with _ | ⟨ra, rs, rlog⟩
        · rw [hrec] at h; simp at h
        · rw [hrec] at h
          simp only [Option.map_some', Option.some.injEq, Prod.mk.injEq] at h
          obtain ⟨h1, h2, h3⟩ := h
          subst h1; subst h3
          obtain ⟨ih1, ih2, ih3⟩ :=
            decodeLoopG_mode1 M hNext hInit hTick fuel _ ra rs rlog hs2 hrec
          refine ⟨by simpa using ih1, by simpa using ih2, ?_⟩
          intro e he
          cases rlog with
          | nil => simp [List.dropLast] at he
          | cons r rs' =>
            rw [List.dropLast_cons₂] at he
            cases he with
            | head => rfl
            | tail _ hmem => exact ih3 e hmem
      | false =>
        rw [hfin] at h
        simp only [Bool.false_eq_true, if_false, List.nil_append] at h
        rw [hs2] at h
        simp only [beq_self_eq_true, List.isEmpty_cons, Bool.not_false,
          Bool.true_and, if_true] at h
        simp only [Option.some.injEq, Prod.mk.injEq] at h
        obtain ⟨h1, h2, h3⟩ := h
        subst h1; subst h3
        simp

theorem norm_single_axis (z : ℝ) (hz : 0 ≤ z) : Vec3.norm ⟨0, 0, z⟩ = z := by
  unfold Vec3.norm
  simp
  exact Real.sqrt_mul_self hz

theorem moveTo_update_far (cmd : SceCommandRoleMoveTo) (scene : MoveToScene)
    (dt : ℝ)
    (h : ¬ (Vec3.sub (scene.nav_coord_to_scene_coord cmd.nav_x cmd.nav_z)
        scene.role.position).norm < 175 * dt) :
    cmd.update scene dt =
      ({ scene with role :=
          { position := Vec3.add scene.role.position
              (Vec3.dot (175 * dt)
                (Vec3.sub (scene.nav_coord_to_scene_coord cmd.nav_x cmd.nav_z)
                  scene.role.position).normalized),
            faced_target :=
              some (scene.nav_coord_to_scene_coord cmd.nav_x cmd.nav_z),
            animation := scene.role.animation } }, false) := by
  unfold SceCommandRoleMoveTo.update
  dsimp only
  simp only [if_neg h, decide_eq_false h]

theorem moveTo_update_near (cmd : SceCommandRoleMoveTo) (scene : MoveToScene)
    (dt : ℝ)
    (h : (Vec3.sub (scene.nav_coord_to_scene_coord cmd.nav_x cmd.nav_z)
        scene.role.position).norm < 175 * dt) :
    cmd.update scene dt =
      ({ scene with role :=
          { position := scene.nav_coord_to_scene_coord cmd.nav_x cmd.nav_z,
            faced_target :=
              some (scene.nav_coord_to_scene_coord cmd.nav_x cmd.nav_z),
            animation := .idle } }, true) := by
  unfold SceCommandRoleMoveTo.update
  dsimp only
  simp only [if_pos h, decide_eq_true h]

theorem navIdentity_cmd :
    navIdentity moveToCmd.nav_x moveToCmd.nav_z = ⟨0, 0, 350⟩ := by
  show navIdentity (((0 : Int) : ℝ)) (((350 : Int) : ℝ)) = _
  unfold navIdentity
  norm_num

theorem moveToTick1_eq :
    moveToTick1 =
      ({ nav_coord_to_scene_coord := navIdentity,
         role := { position := ⟨0, 0, 175⟩, faced_target := some ⟨0, 0, 350⟩,
                   animation := .running } }, false) := by
  unfold moveToTick1
  have hrem : Vec3.sub (moveToScene0.nav_coord_to_scene_coord moveToCmd.nav_x
      moveToCmd.nav_z) moveToScene0.role.position = ⟨0, 0, 350⟩ := by
    show Vec3.sub (navIdentity moveToCmd.nav_x moveToCmd.nav_z) ⟨0, 0, 0⟩ = _
    rw [navIdentity_cmd]
    unfold Vec3.sub
    norm_num
  have hfar : ¬ (Vec3.sub (moveToScene0.nav_coord_to_scene_coord
      moveToCmd.nav_x moveToCmd.nav_z) moveToScene0.role.position).norm <
      175 * 1 := by
    rw [hrem, norm_single_axis 350 (by norm_num)]
    norm_num
  rw [moveTo_update_far _ _ _ hfar, hrem]
  have hto : moveToScene0.nav_coord_to_scene_coord moveToCmd.nav_x
      moveToCmd.nav_z = Vec3.mk 0 0 350 := by
    show navIdentity moveToCmd.nav_x moveToCmd.nav_z = _
    exact navIdentity_cmd
  rw [hto]
  have hpos : Vec3.add moveToScene0.role.position
      (Vec3.dot (175 * 1) (Vec3.normalized ⟨0, 0, 350⟩)) = ⟨0, 0, 175⟩ := by
    show Vec3.add ⟨0, 0, 0⟩ _ = _
    unfold Vec3.normalized
    rw [norm_single_axis 350 (by norm_num)]
    unfold Vec3.dot Vec3.add
    norm_num
  rw [hpos]
  rfl

theorem moveToTick2_eq :
    moveToTick2 =
      ({ nav_coord_to_scene_coord := navIdentity,
         role := { position := ⟨0, 0, 350⟩, faced_target := some ⟨0, 0, 350⟩,
                   animation := .running } }, false) := by
  unfold moveToTick2
  rw [moveToTick1_eq]
  set scene1 : MoveToScene :=
    { nav_coord_to_scene_coord := navIdentity,
      role := { position := ⟨0, 0, 175⟩, faced_target := some ⟨0, 0, 350⟩,
                animation := .running } } with hscene1
  show moveToCmd.update scene1 1 = _
  have hrem : Vec3.sub (scene1.nav_coord_to_scene_coord moveToCmd.nav_x
      moveToCmd.nav_z) scene1.role.position = ⟨0, 0, 175⟩ := by
    show Vec3.sub (navIdentity moveToCmd.nav_x moveToCmd.nav_z) ⟨0, 0, 175⟩ = _
    rw [navIdentity_cmd]
    unfold Vec3.sub
    norm_num
  have hfar : ¬ (Vec3.sub (scene1.nav_coord_to_scene_coord moveToCmd.nav_x
      moveToCmd.nav_z) scene1.role.position).norm < 175 * 1 := by
    rw [hrem, norm_single_axis 175 (by norm_num)]
    norm_num
  rw [moveTo_update_far _ _ _ hfar, hrem]
  have hto : scene1.nav_coord_to_scene_coord moveToCmd.nav_x
      moveToCmd.nav_z = Vec3.mk 0 0 350 := by
    show navIdentity moveToCmd.nav_x moveToCmd.nav_z = _
    exact navIdentity_cmd
  rw [hto]
  have hpos : Vec3.add scene1.role.position
      (Vec3.dot (175 * 1) (Vec3.normalized ⟨0, 0, 175⟩)) = ⟨0, 0, 350⟩ := by
    show Vec3.add ⟨0, 0, 175⟩ _ = _
    unfold Vec3.normalized
    rw [norm_single_axis 175 (by norm_num)]
    unfold Vec3.dot Vec3.add
    norm_num
  rw [hpos]

theorem moveToTick3_eq :
    moveToTick3 =
      ({ nav_coord_to_scene_coord := navIdentity,
         role := { position := ⟨0, 0, 350⟩, faced_target := some ⟨0, 0, 350⟩,
                   animation := .idle } }, true) := by
  unfold moveToTick3
  rw [moveToTick2_eq]
  set scene2 : MoveToScene :=
    { nav_coord_to_scene_coord := navIdentity,
      role := { position := ⟨0, 0, 350⟩, faced_target := some ⟨0, 0, 350⟩,
                animation := .running } } with hscene2
  show moveToCmd.update scene2 1 = _
  have hrem : Vec3.sub (scene2.nav_coord_to_scene_coord moveToCmd.nav_x
      moveToCmd.nav_z) scene2.role.position = ⟨0, 0, 0⟩ := by
    show Vec3.sub (navIdentity moveToCmd.nav_x moveToCmd.nav_z) ⟨0, 0, 350⟩ = _
    rw [navIdentity_cmd]
    unfold Vec3.sub
    norm_num
  have hnear : (Vec3.sub (scene2.nav_coord_to_scene_coord moveToCmd.nav_x
      moveToCmd.nav_z) scene2.role.position).norm < 175 * 1 := by
    rw [hrem, norm_single_axis 0 (by norm_num)]
    norm_num
  rw [moveTo_update_near _ _ _ hnear]
  have hto : scene2.nav_coord_to_scene_coord moveToCmd.nav_x
      moveToCmd.nav_z = Vec3.mk 0 0 350 := by
    show navIdentity moveToCmd.nav_x moveToCmd.nav_z = _
    exact navIdentity_cmd
  rw [hto]

/-!
## Claim theorems
-/

/-- C1 (counterexample): the claim says decoding `[opcode][a][b]` binds the
first declared parameter to `a`.  For opcode 6 (`Gt(var: i16, value: i32)`),
encoding the arguments in declaration order (`var = 1` in the first two
bytes, then `value = 2` in four bytes) does **not** produce `Gt 1 2`: the
dispatcher reads the `i32` first, yielding `Gt 0 131073`. -/
theorem claim_C1_counterexample :
    StepOut.cmdOf (SceProcContext.get_next_cmd
      (mkCtx (enc4 6 ++ enc2 1 ++ enc4 2))) = some (SceCmd.Gt 0 131073) ∧
    StepOut.cmdOf (SceProcContext.get_next_cmd
      (mkCtx (enc4 6 ++ enc2 1 ++ enc4 2))) ≠ some (SceCmd.Gt 1 2) := by
  have hpos : StepOut.cmdOf (SceProcContext.get_next_cmd
      (mkCtx (enc4 6 ++ enc2 1 ++ enc4 2))) = some (SceCmd.Gt 0 131073) := rfl
  refine ⟨hpos, ?_⟩
  rw [hpos]
  decide

set_option maxHeartbeats 6400000 in
/-- C1 (amended): the `command!` macro reads each opcode's arguments in
**reverse** declaration order, so a buffer encoding
`[opcode][last arg]...[first arg]` binds the command's parameters in their
declared positions.  Verified below for every opcode of the dispatch table
that constructs a command with arguments, with pairwise-distinct argument
values. -/
theorem claim_C1 :
    StepOut.cmdOf (SceProcContext.get_next_cmd
      (mkCtx (enc4 1 ++ enc4 42))) = some (SceCmd.Idle 42) ∧
    StepOut.cmdOf (SceProcContext.get_next_cmd
      (mkCtx (enc4 2 ++ enc4 5))) = some (SceCmd.ScriptRunMode 5) ∧
    StepOut.cmdOf (SceProcContext.get_next_cmd
      (mkCtx (enc4 3 ++ enc4 7))) = some (SceCmd.Goto 7) ∧
    StepOut.cmdOf (SceProcContext.get_next_cmd
      (mkCtx (enc4 5 ++ enc4 9))) = some (SceCmd.Fop 9) ∧
    StepOut.cmdOf (SceProcContext.get_next_cmd
      (mkCtx (enc4 6 ++ enc4 2 ++ enc2 1))) = some (SceCmd.Gt 1 2) ∧
    StepOut.cmdOf (SceProcContext.get_next_cmd
      (mkCtx (enc4 7 ++ enc4 4 ++ enc2 3))) = some (SceCmd.Ls 3 4) ∧
    StepOut.cmdOf (SceProcContext.get_next_cmd
      (mkCtx (enc4 8 ++ enc4 6 ++ enc2 5))) = some (SceCmd.Eq 5 6) ∧
    StepOut.cmdOf (SceProcContext.get_next_cmd
      (mkCtx (enc4 9 ++ enc4 8 ++ enc2 7))) = some (SceCmd.Neq 7 8) ∧
    StepOut.cmdOf (SceProcContext.get_next_cmd
      (mkCtx (enc4 10 ++ enc4 10 ++ enc2 9))) = some (SceCmd.Geq 9 10) ∧
    StepOut.cmdOf (SceProcContext.get_next_cmd
      (mkCtx (enc4 11 ++ enc4 12 ++ enc2 11))) = some (SceCmd.Leq 11 12) ∧
    StepOut.cmdOf (SceProcContext.get_next_cmd
      (mkCtx (enc4 12 ++ enc4 13))) = some (SceCmd.TestGoto 13) ∧
    StepOut.cmdOf (SceProcContext.get_next_cmd
      (mkCtx (enc4 13 ++ enc4 14 ++ enc2 15))) = some (SceCmd.Let 15 14) ∧
    StepOut.cmdOf (SceProcContext.get_next_cmd
      (mkCtx (enc4 16 ++ enc4 3))) = some (SceCmd.Call 3) ∧
    StepOut.cmdOf (SceProcContext.get_next_cmd
      (mkCtx (enc4 17 ++ enc4 20 ++ enc2 19))) = some (SceCmd.Rnd 19 20) ∧
    StepOut.cmdOf (SceProcContext.get_next_cmd
      (mkCtx (enc4 20 ++ enc4 4 ++ enc4 3 ++ enc4 2 ++ enc4 1))) =
      some (SceCmd.RolePathTo 1 2 3 4) ∧
    StepOut.cmdOf (SceProcContext.get_next_cmd
      (mkCtx (enc4 21 ++ enc4 3 ++ enc4 2 ++ enc4 1))) =
      some (SceCmd.RoleSetPos 1 2 3) ∧
    StepOut.cmdOf (SceProcContext.get_next_cmd
      (mkCtx (enc4 22 ++ enc4 9 ++ encStr [65] ++ enc4 1))) =
      some (SceCmd.RoleShowAction 1 [65] 9) ∧
    StepOut.cmdOf (SceProcContext.get_next_cmd
      (mkCtx (enc4 23 ++ enc4 2 ++ enc4 1))) =
      some (SceCmd.RoleSetFace 1 2) ∧
    StepOut.cmdOf (SceProcContext.get_next_cmd
      (mkCtx (enc4 24 ++ enc4 77 ++ enc4 1))) =
      some (SceCmd.RoleTurnFace 1 77) ∧
    StepOut.cmdOf (SceProcContext.get_next_cmd
      (mkCtx (enc4 27 ++ enc4 1))) = some (SceCmd.RoleInput 1) ∧
    StepOut.cmdOf (SceProcContext.get_next_cmd
      (mkCtx (enc4 28 ++ enc4 2 ++ enc4 1))) =
      some (SceCmd.RoleActive 1 2) ∧
    StepOut.cmdOf (SceProcContext.get_next_cmd
      (mkCtx (enc4 34 ++ enc4 5 ++ enc4 4 ++ enc4 3 ++ enc4 2 ++ enc4 1))) =
      some (SceCmd.CameraMove 1 2 3 4 5) ∧
    StepOut.cmdOf (SceProcContext.get_next_cmd
      (mkCtx (enc4 36 ++ enc4 6 ++ enc4 5 ++ enc4 4 ++ enc4 3 ++ enc4 2 ++
        enc4 1))) = some (SceCmd.CameraSet 1 2 3 4 5 6) ∧
    StepOut.cmdOf (SceProcContext.get_next_cmd
      (mkCtx (enc4 37 ++ enc4 3))) = some (SceCmd.CameraDefault 3) ∧
    StepOut.cmdOf (SceProcContext.get_next_cmd
      (mkCtx (enc4 62 ++ encStr [72, 73]))) = some (SceCmd.Dlg [72, 73]) ∧
    StepOut.cmdOf (SceProcContext.get_next_cmd
      (mkCtx (enc4 63 ++ encStr [66] ++ encStr [65]))) =
      some (SceCmd.LoadScene [65] [66]) ∧
    StepOut.cmdOf (SceProcContext.get_next_cmd
      (mkCtx (enc4 65 ++ enc2 2 ++ [7] ++ encStr [65] ++ [9] ++
        encStr [66]))) = some (SceCmd.DlgSel [[65], [66]]) ∧
    StepOut.cmdOf (SceProcContext.get_next_cmd
      (mkCtx (enc4 66 ++ enc2 4))) = some (SceCmd.GetDlgSel 4) ∧
    StepOut.cmdOf (SceProcContext.get_next_cmd
      (mkCtx (enc4 78 ++ enc4 11))) = some (SceCmd.HaveItem 11) ∧
    StepOut.cmdOf (SceProcContext.get_next_cmd
      (mkCtx (enc4 79 ++ enc4 3 ++ encStr [83]))) =
      some (SceCmd.PlaySound [83] 3) ∧
    StepOut.cmdOf (SceProcContext.get_next_cmd
      (mkCtx (enc4 85 ++ enc4 2 ++ enc4 1))) =
      some (SceCmd.ObjectActive 1 2) ∧
    StepOut.cmdOf (SceProcContext.get_next_cmd
      (mkCtx (enc4 89 ++ enc4 3 ++ enc4 2 ++ enc4 1))) =
      some (SceCmd.HyFly 1 2 3) ∧
    StepOut.cmdOf (SceProcContext.get_next_cmd
      (mkCtx (enc4 108 ++ enc2 6))) = some (SceCmd.GetAppr 6) ∧
    StepOut.cmdOf (SceProcContext.get_next_cmd
      (mkCtx (enc4 133 ++ enc4 5 ++ encStr [77]))) =
      some (SceCmd.Music [77] 5) ∧
    StepOut.cmdOf (SceProcContext.get_next_cmd
      (mkCtx (enc4 201 ++ enc4 8 ++ enc4 7 ++ enc4 6 ++ enc4 5))) =
      some (SceCmd.RolePathOut 5 6 7 8) ∧
    StepOut.cmdOf (SceProcContext.get_next_cmd
      (mkCtx (enc4 204 ++ enc4 2))) = some (SceCmd.RoleCtrl 2) ∧
    StepOut.cmdOf (SceProcContext.get_next_cmd
      (mkCtx (enc4 207 ++ enc4 2 ++ enc4 1))) =
      some (SceCmd.RoleActAutoStand 1 2) ∧
    StepOut.cmdOf (SceProcContext.get_next_cmd
      (mkCtx (enc4 208 ++ enc4 9 ++ enc4 1))) =
      some (SceCmd.RoleMoveBack 1 9) ∧
    StepOut.cmdOf (SceProcContext.get_next_cmd
      (mkCtx (enc4 209 ++ enc4 2 ++ enc4 1))) =
      some (SceCmd.RoleFaceRole 1 2) ∧
    StepOut.cmdOf (SceProcContext.get_next_cmd
      (mkCtx (enc4 210 ++ enc4 4 ++ enc4 3))) =
      some (SceCmd.RoleSetFace 3 4) ∧
    StepOut.cmdOf (SceProcContext.get_next_cmd
      (mkCtx (enc4 214 ++ enc4 4 ++ enc4 3 ++ enc4 2 ++ enc4 1))) =
      some (SceCmd.RoleMoveTo 1 2 3 4) :=
  ⟨rfl, rfl, rfl, rfl, rfl, rfl, rfl, rfl, rfl, rfl, rfl, rfl, rfl, rfl, rfl,
   rfl, rfl, rfl, rfl, rfl, rfl, rfl, rfl, rfl, rfl, rfl, rfl, rfl, rfl, rfl,
   rfl, rfl, rfl, rfl, rfl, rfl, rfl, rfl, rfl, rfl, rfl⟩

/-- C2: whenever the dispatcher hits an opcode with no handler, the result is
the `unknown` outcome (error log + `put(4)` + panic) and the frame at the
panic point is the pre-dispatch frame unchanged — in particular its program
counter equals its pre-dispatch value (the 4-byte opcode read is undone by
the 4-byte rewind). -/
theorem claim_C2 (ctx : SceProcContext) (code : Int) (ctx' : SceProcContext)
    (h : ctx.get_next_cmd = .unknown code ctx') :
    ctx'.program_counter = ctx.program_counter ∧ ctx' = ctx := by
  have he := get_next_cmd_unknown h
  exact ⟨by rw [he], he⟩

/-- C2 witness: the buffer holding the single unhandled opcode `0xDEADDEAD`
dispatches to the `unknown` outcome with the context unchanged. -/
theorem claim_C2_witness :
    unknownCtx.get_next_cmd = StepOut.unknown (-559038737) unknownCtx ∧
    unknownCtx.program_counter = unknownCtx.program_counter := by
  have h : unknownCtx.get_next_cmd = StepOut.unknown (-559038737) unknownCtx :=
    rfl
  exact ⟨h, (claim_C2 unknownCtx (-559038737) unknownCtx h).1⟩

/-- C3 (counterexample): from the reachable entry state `demoS0`
(`run_mode = 1`, empty active set — exactly the state `SceVm::new` plus a
queued script produces), one `update` can leave **two** unfinished commands
in the active set: the script switches to interleaved mode, starts two
idles, and switches back to strict-sequential, at which point the loop
breaks with an active set of size 2 (and `run_mode = 1` again).  The
`SetRunMode` and `Idle` behaviours are modelled from the spec. -/
theorem claim_C3_counterexample :
    demoS0.runMode = 1 ∧
    vmUpdate demoModel 10 [] demoS0 =
      some ([DemoCmd.idle 9, DemoCmd.idle 9],
            { queue := [], runMode := 1 }) ∧
    ¬ ([DemoCmd.idle 9, DemoCmd.idle 9].length ≤ 1) := by
  refine ⟨rfl, by decide, by decide⟩

/-- C3 (amended): provided no command run during the step changes the run
mode away from 1 and the active set is empty at entry, a single `update`
leaves at most one active command; the active set is exactly the unfinished
entries of the decode log, and every decoded command except possibly the
last finished immediately — so a non-empty active set holds exactly the
most-recently-decoded (unfinished) command. -/
theorem claim_C3 {C S : Type} (M : VmModel C S) (fuel : Nat) (s : S)
    (hNext : ∀ s, M.runMode (M.getNext s).2 = M.runMode s)
    (hInit : ∀ c s, M.runMode (M.initC c s).2 = M.runMode s)
    (hTick : ∀ c s, M.runMode (M.tick c s).2.1 = M.runMode s)
    (hmode : M.runMode (M.gsTick s) = 1)
    (active' : List C) (s' : S) (log : List (C × Bool))
    (h : decodeLoopG M fuel [] (M.gsTick s) = some (active', s', log)) :
    vmUpdate M fuel [] s = some (active', s') ∧
    active'.length ≤ 1 ∧
    active' = (log.filter (fun e => !e.2)).map Prod.fst ∧
    (∀ e ∈ log.dropLast, e.2 = true) := by
  obtain ⟨h1, h2, h3⟩ :=
    decodeLoopG_mode1 M hNext hInit hTick fuel (M.gsTick s) active' s' log
      hmode h
  refine ⟨?_, h2, h1, h3⟩
  show decodeLoop M fuel [] (M.gsTick s) = some (active', s')
  rw [decodeLoop_eq_G, h]
  rfl

/-- C3 witness: a run-mode-preserving model with two instantly-finishing
commands steps to an empty active set. -/
theorem claim_C3_witness :
    vmUpdate demoSeqModel 5 [] 2 = some ([], 0) ∧
    ([] : List Nat).length ≤ 1 := by
  have h := claim_C3 demoSeqModel 5 2 (fun _ => rfl) (fun _ _ => rfl)
    (fun _ _ => rfl) rfl [] 0 [(2, true), (1, true)] rfl
  exact ⟨h.1, h.2.1⟩

/-- C4: when the active set is non-empty at entry, `update` is exactly the
tick-and-drain pass: (1) the result is `tickAll` over the entry list;
(2) it does not depend on the decoder (`getNext`), the initializer or the
run mode — no command is decoded this frame; (3) `tickAll` agrees with its
logged variant, whose log shows (4) every entry command is ticked exactly
once, in the order the commands were added, and (5) the surviving active
set consists of exactly the ticked commands whose tick returned
unfinished, in order. -/
theorem claim_C4 {C S : Type} (M M' : VmModel C S) (fuel : Nat)
    (active : List C) (s : S) (hne : active ≠ [])
    (ht : M'.tick = M.tick) (hg : M'.gsTick = M.gsTick) :
    vmUpdate M fuel active s = some (tickAll M.tick active (M.gsTick s)) ∧
    vmUpdate M' fuel active s = vmUpdate M fuel active s ∧
    tickAll M.tick active (M.gsTick s) =
      ((tickAllG M.tick active (M.gsTick s)).1,
       (tickAllG M.tick active (M.gsTick s)).2.1) ∧
    ((tickAllG M.tick active (M.gsTick s)).2.2).map (fun e => e.1) = active ∧
    (tickAllG M.tick active (M.gsTick s)).1 =
      (((tickAllG M.tick active (M.gsTick s)).2.2).filter
        (fun e => !e.2.2)).map (fun e => e.2.1) :=
  ⟨vmUpdate_active_nonempty M fuel active s hne,
   vmUpdate_tick_only M M' fuel active s hne ht hg,
   tickAll_eq_G M.tick active (M.gsTick s),
   tickAllG_log_inputs M.tick active (M.gsTick s),
   tickAllG_survivors M.tick active (M.gsTick s)⟩

/-- C4 witness: a two-command active set is ticked in place, and its log
lists both commands in order. -/
theorem claim_C4_witness :
    vmUpdate demoModel 3 [DemoCmd.idle 5, DemoCmd.setRunMode 0]
        { queue := [], runMode := 1 } =
      some (tickAll demoModel.tick [DemoCmd.idle 5, DemoCmd.setRunMode 0]
        (demoModel.gsTick { queue := [], runMode := 1 })) ∧
    ((tickAllG demoModel.tick [DemoCmd.idle 5, DemoCmd.setRunMode 0]
        (demoModel.gsTick { queue := [], runMode := 1 })).2.2).map
      (fun e => e.1) = [DemoCmd.idle 5, DemoCmd.setRunMode 0] := by
  have h := claim_C4 demoModel demoModel 3
    [DemoCmd.idle 5, DemoCmd.setRunMode 0] { queue := [], runMode := 1 }
    (by simp) rfl rfl
  exact ⟨h.1, h.2.2.2.1⟩

/-- C5: `SceExecutionContext::get_next_cmd` (1) first pops every frame from
the top of the stack whose program counter has reached or passed the end of
its buffer (the drain is `dropWhile proc_completed`); (2) returns `None`
when the stack is empty after draining; and (3) in the CALL-return scenario
(`execC5`: a completed callee above a caller), it pops the callee and
decodes the caller's next opcode. -/
theorem claim_C5 :
    (∀ stack : List SceProcContext,
      SceExecutionContext.drainStack stack =
        stack.dropWhile (fun p => p.proc_completed)) ∧
    (∀ e : SceExecutionContext,
      SceExecutionContext.drainStack e.proc_stack = [] →
      e.get_next_cmd = .ok none { e with proc_stack := [] }) ∧
    execC5.get_next_cmd =
      .ok (some SceCmd.StopMusic)
        { sce := sceC5,
          proc_stack := [{ callerFrame with program_counter := 4 }] } := by
  refine ⟨drainStack_eq_dropWhile, ?_, rfl⟩
  intro e h
  unfold SceExecutionContext.get_next_cmd
  rw [h]

/-- C5 witness: draining an empty stack yields the absent command. -/
theorem claim_C5_witness :
    SceExecutionContext.get_next_cmd { sce := sceC5, proc_stack := [] } =
      .ok none { sce := sceC5, proc_stack := [] } :=
  claim_C5.2.1 { sce := sceC5, proc_stack := [] } rfl

/-- C6: locals are frame-scoped.  (1) `call_proc` pushes exactly the fresh
frame `new_from_id` builds — with an empty local table, every `get_local`
absent — on top of the unchanged existing frames; (2) `set_local` on the
execution context rewrites only the top frame, leaving every frame beneath
(in particular a CALLer's frame and its `get_local` results) untouched. -/
theorem claim_C6 :
    (∀ (e : SceExecutionContext) (pid : Nat) (f : SceProcContext),
      SceProcContext.new_from_id e.sce pid = some f →
      e.call_proc pid = some { e with proc_stack := f :: e.proc_stack } ∧
      f.local_vars = [] ∧ ∀ s, f.get_local s = none) ∧
    (∀ (e : SceExecutionContext) (top : SceProcContext)
       (rest : List SceProcContext) (var value : Int),
      e.proc_stack = top :: rest →
      e.set_local var value =
        some { e with proc_stack := top.set_local var value :: rest }) := by
  constructor
  · intro e pid f h
    have hsh := new_from_id_shape h
    refine ⟨?_, hsh.1, ?_⟩
    · unfold SceExecutionContext.call_proc
      rw [h]
      rfl
    · intro s
      unfold SceProcContext.get_local
      rw [hsh.1]
      rfl
  · intro e top rest var value h
    unfold SceExecutionContext.set_local
    rw [h]

/-- C6 witness: calling procedure 1 from atop `callerL` (which holds
`local[5] = 99`) pushes a fresh frame with no locals; a `set_local` then
only rewrites that new top frame, leaving `callerL` (and its
`get_local 5 = some 99`) intact beneath. -/
theorem claim_C6_witness :
    SceExecutionContext.call_proc { sce := sceC5, proc_stack := [callerL] } 1 =
      some { sce := sceC5, proc_stack := [calleeFrame, callerL] } ∧
    calleeFrame.local_vars = [] ∧
    calleeFrame.get_local 5 = none ∧
    SceExecutionContext.set_local
        { sce := sceC5, proc_stack := [calleeFrame, callerL] } 5 1 =
      some { sce := sceC5,
             proc_stack := [calleeFrame.set_local 5 1, callerL] } ∧
    callerL.get_local 5 = some 99 := by
  have h1 := (claim_C6.1 { sce := sceC5, proc_stack := [callerL] } 1
    calleeFrame rfl)
  have h2 := claim_C6.2 { sce := sceC5, proc_stack := [calleeFrame, callerL] }
    calleeFrame [callerL] 5 1 rfl
  exact ⟨h1.1, h1.2.1, h1.2.2 5, h2, rfl⟩

/-- C7: each aliased opcode `X | 0x10000` is handled by the same match arm
as `X`, so dispatching it on any context (hence any trailing argument
bytes) yields the identical outcome: same command, same bound arguments,
same final program counter. -/
theorem claim_C7 (ctx : SceProcContext) :
    dispatch 6 ctx = dispatch 65542 ctx ∧
    dispatch 7 ctx = dispatch 65543 ctx ∧
    dispatch 8 ctx = dispatch 65544 ctx ∧
    dispatch 9 ctx = dispatch 65545 ctx ∧
    dispatch 10 ctx = dispatch 65546 ctx ∧
    dispatch 11 ctx = dispatch 65547 ctx ∧
    dispatch 13 ctx = dispatch 65549 ctx ∧
    dispatch 17 ctx = dispatch 65553 ctx ∧
    dispatch 66 ctx = dispatch 65602 ctx ∧
    dispatch 108 ctx = dispatch 65644 ctx :=
  ⟨rfl, rfl, rfl, rfl, rfl, rfl, rfl, rfl, rfl, rfl⟩

/-- C8 (counterexample): in the spec's `RoleMoveTo` scenario (target
`(0,350)`, identity nav translation, role at the origin, `dt = 1`), the
command has **not** finished after two ticks: the second tick still compares
`remain.norm = 175 < step = 175`, which is false under the strict `<`. -/
theorem claim_C8_counterexample :
    moveToTick1.2 = false ∧ moveToTick2.2 = false := by
  rw [moveToTick1_eq, moveToTick2_eq]
  exact ⟨rfl, rfl⟩

/-- C8 (amended): the scenario finishes after exactly **three** ticks of
`dt = 1`: ticks 1 and 2 return unfinished, tick 3 returns finished; the
role's position is `(0, 0, 350)` from the end of tick 2 onwards and the
animation ends in `idle`. -/
theorem claim_C8 :
    moveToTick1.2 = false ∧ moveToTick2.2 = false ∧ moveToTick3.2 = true ∧
    moveToTick2.1.role.position = ⟨0, 0, 350⟩ ∧
    moveToTick3.1.role.position = ⟨0, 0, 350⟩ ∧
    moveToTick3.1.role.animation = .idle := by
  rw [moveToTick1_eq, moveToTick2_eq, moveToTick3_eq]
  exact ⟨rfl, rfl, rfl, rfl, rfl, rfl⟩

/-- C9: for every role id, speed and `delta_sec`, one `RoleMoveBack` tick
(1) reports finished, (2) translates the resolved role's transform along its
local Z axis by exactly the bound speed, and (3) is independent of
`delta_sec`. -/
theorem claim_C9 (role_id : Int) (speed dt1 dt2 : ℝ) (scene : MoveBackScene) :
    ((SceCommandRoleMoveBack.new role_id speed).update scene dt1).2 = true ∧
    ((SceCommandRoleMoveBack.new role_id speed).update scene
        dt1).1.role_transform.position =
      Vec3.add scene.role_transform.position
        (Vec3.dot speed scene.role_transform.local_z) ∧
    (SceCommandRoleMoveBack.new role_id speed).update scene dt1 =
      (SceCommandRoleMoveBack.new role_id speed).update scene dt2 := by
  refine ⟨rfl, ?_, rfl⟩
  show (scene.role_transform.translate_local ⟨0, 0, speed⟩).position = _
  unfold Transform.translate_local
  dsimp only
  unfold Vec3.dot Vec3.add
  simp only [Vec3.mk.injEq]
  refine ⟨by ring, by ring, by ring⟩

/-- C10: a VM fresh out of `SceVm::new` has an empty active command set, an
empty procedure stack, and `run_mode = 1` (strict-sequential) — the
undocumented default the claim states. -/
theorem claim_C10 (sce : SceFile) :
    (SceVm.new sce).active_commands = [] ∧
    (SceVm.new sce).state.run_mode = 1 ∧
    (SceVm.new sce).state.context.proc_stack = [] :=
  ⟨rfl, rfl, rfl⟩

end S2P
